import Mathlib

/-!
Shallow embedding of the auth-service core (`src/auth-service/app`):
the JWT token engine (`utils/auth.py`), the sliding-window rate limiter
(`services/rate_limiter.py`), the user and refresh-token repositories
(`repositories/`), and the auth orchestrator (`services/auth_service.py`).

Modelling conventions:
* Machine time is `Int` seconds since the epoch (Python `int(time.time())`
  and epoch-second JWT claims).  Each request-level operation takes the
  current time `now` as an explicit parameter.
* Nondeterministic fresh values (`uuid.uuid4()` token ids, new row ids)
  are explicit parameters.
* External black-box primitives are modelled by their contracts:
  bcrypt (`hash_password` / `verify_password`) by a tagged encoding whose
  verify succeeds exactly on the hashed password, and SHA-256
  (`hash_token`) by a deterministic digest of the token's serialized
  fields (the code only relies on determinism and collision-freedom).
* RSA signing is modelled by recording which private key signed a token;
  signature verification succeeds exactly when the manager's key pair
  matches the signing key.
* The Redis sorted-set store is a function from key strings to the list
  of member timestamps; `zadd key {str(ts): ts}` is insert-if-absent
  (the member string is determined by the timestamp, so a duplicate
  timestamp does not grow the set), `zremrangebyscore key 0 hi` removes
  the members with score in `[0, hi]`, and `zcard` is the length.
  `expire` only schedules whole-key deletion after an idle period of one
  window, by which point every member is older than the purge cutoff
  applied on the next read, so it is modelled as a no-op on the
  observable counts.
-/

namespace AuthCore

/-- Domain error taxonomy of `app/utils/errors.py` (constructors named
after the error classes raised by the service layer). -/
inductive AuthErr where
  | validationFailed
  | conflict
  | invalidCredentials
  | accountInactive
  | invalidRefreshToken
  | rateLimitExceeded
  deriving DecidableEq, Repr

/-- Errors raised by `jwt.decode` inside `JWTManager.validate_token`
(`jwt.ExpiredSignatureError` is a subclass of `jwt.InvalidTokenError`,
and the method re-raises every failure as `jwt.InvalidTokenError`). -/
inductive JwtErr where
  | invalidToken
  | expired
  deriving DecidableEq, Repr

/-- JWT claim set built by `JWTManager.generate_access_token` /
`generate_refresh_token`.  `username`/`email` are `none` on refresh
tokens, which do not carry them. -/
structure TokenPayload where
  sub : String
  iss : String
  aud : String
  exp : Int
  iat : Int
  jti : String
  type : String
  username : Option String
  email : Option String
  deriving DecidableEq, Repr

/-- A signed token: claims, the `kid` header, and the private key that
produced the signature (stands for the RSA signature itself). -/
structure Jwt where
  payload : TokenPayload
  kid : String
  key : String
  deriving DecidableEq, Repr

/-- Configuration and key material of `JWTManager.__init__`:
`access_token_ttl` is in minutes, `refresh_token_ttl` in days. -/
structure JWTManager where
  private_key : String
  public_key : String
  key_id : String
  algorithm : String
  issuer : String
  audience : String
  access_token_ttl : Int
  refresh_token_ttl : Int
  deriving DecidableEq, Repr

/-- `JWTManager.generate_access_token` (`app/utils/auth.py:77`):
claims `sub/iss/aud/exp/iat/jti/type/username/email` with
`exp = now + access_token_ttl minutes`, signed with the manager's
private key under header `kid`. -/
def generate_access_token (mgr : JWTManager) (user_id username email : String)
    (now : Int) (jti : String) : Jwt :=
  { payload :=
      { sub := user_id
        iss := mgr.issuer
        aud := mgr.audience
        exp := now + mgr.access_token_ttl * 60
        iat := now
        jti := jti
        type := "access"
        username := some username
        email := some email }
    kid := mgr.key_id
    key := mgr.private_key }

/-- `JWTManager.generate_refresh_token` (`app/utils/auth.py:99`):
audience is the issuer itself and `exp = now + refresh_token_ttl days`. -/
def generate_refresh_token (mgr : JWTManager) (user_id : String)
    (now : Int) (jti : String) : Jwt :=
  { payload :=
      { sub := user_id
        iss := mgr.issuer
        aud := mgr.issuer
        exp := now + mgr.refresh_token_ttl * 86400
        iat := now
        jti := jti
        type := "refresh"
        username := none
        email := none }
    kid := mgr.key_id
    key := mgr.private_key }

/-- `JWTManager.validate_token` (`app/utils/auth.py:119`): peek at the
claims without verifying the signature and reject a type mismatch, then
perform a verifying decode checking signature, issuer, audience
(issuer for refresh tokens, the configured audience otherwise) and
expiry (PyJWT raises `ExpiredSignatureError` when `exp <= now`). -/
def validate_token (mgr : JWTManager) (token : Jwt) (token_type : String)
    (now : Int) : Except JwtErr TokenPayload :=
  if token.payload.type ≠ token_type then .error .invalidToken
  else if token.key ≠ mgr.private_key then .error .invalidToken
  else if token.payload.iss ≠ mgr.issuer then .error .invalidToken
  else if token.payload.aud ≠
      (if token_type = "refresh" then mgr.issuer else mgr.audience) then
    .error .invalidToken
  else if token.payload.exp ≤ now then .error .expired
  else .ok token.payload

/-- Serialization of a token's signed content, the input of the storage
digest. -/
def serialize_token (t : Jwt) : String :=
  t.payload.sub ++ "|" ++ t.payload.iss ++ "|" ++ t.payload.aud ++ "|" ++
    toString t.payload.exp ++ "|" ++ toString t.payload.iat ++ "|" ++
    t.payload.jti ++ "|" ++ t.payload.type ++ "|" ++ t.kid

/-- `JWTManager.hash_token` (`app/utils/auth.py:181`): SHA-256 hex digest
of the encoded token.  The digest is modelled as a deterministic tag of
the serialized token; the code relies only on determinism, and
collision-freedom between distinct tokens is a hypothesis where
needed. -/
def hash_token (t : Jwt) : String :=
  "sha256:" ++ serialize_token t

/-- `PasswordManager.hash_password` (`app/utils/auth.py:192`): bcrypt is
a black-box primitive; the hash is modelled as a tagged copy of the
password, which realizes bcrypt's contract `checkpw(p, hashpw(q)) ↔ p = q`. -/
def hash_password (password : String) : String :=
  "bcrypt$" ++ password

/-- `PasswordManager.verify_password` (`app/utils/auth.py:198`). -/
def verify_password (password hashed : String) : Bool :=
  hashed = "bcrypt$" ++ password

/-- Row of the `users` table (`app/models/user.py`). -/
structure User where
  id : String
  email : String
  username : String
  password_hash : String
  email_verified : Bool
  is_active : Bool
  deriving DecidableEq, Repr

/-- Row of the `refresh_tokens` table (`app/models/refresh_token.py`).
`created_at` comes from the `BaseModel` timestamp column. -/
structure RefreshTokenRec where
  user_id : String
  token_hash : String
  expires_at : Int
  revoked : Bool
  device_info : Option String
  created_at : Int
  deriving DecidableEq, Repr

/-- `RefreshToken.is_expired` (`app/models/refresh_token.py:31`):
`now > expires_at`. -/
def RefreshTokenRec.is_expired (r : RefreshTokenRec) (now : Int) : Bool :=
  now > r.expires_at

/-- `RefreshToken.is_valid` (`app/models/refresh_token.py:35`): not
revoked and not expired. -/
def RefreshTokenRec.is_valid (r : RefreshTokenRec) (now : Int) : Bool :=
  !r.revoked && !r.is_expired now

/-- Python `str.lower` on the ASCII strings used by the service,
character by character (written over the character list so that it
reduces in the kernel). -/
def py_lower (s : String) : String :=
  String.mk (s.data.map Char.toLower)

/-- Python `email.split("@")[0]`: the characters before the first `@`
(the whole string when there is none). -/
def email_local_part (email : String) : String :=
  String.mk (email.data.takeWhile (fun c => c ≠ '@'))

/-- `UserRepository.create_user` (`app/repositories/user_repository.py:19`):
stores the email lowercased; the unique constraints on `email` and
`username` surface as `IntegrityError -> ConflictError`. -/
def create_user (users : List User) (email username password_hash uid : String) :
    Except AuthErr (User × List User) :=
  let user : User :=
    { id := uid
      email := py_lower email
      username := username
      password_hash := password_hash
      email_verified := false
      is_active := true }
  if users.any (fun v => v.email = py_lower email ∨ v.username = username) then
    .error .conflict
  else
    .ok (user, users ++ [user])

/-- `UserRepository.get_user_by_identifier`
(`app/repositories/user_repository.py:47`): first row whose email or
username equals the identifier verbatim (no lowercasing). -/
def get_user_by_identifier (users : List User) (identifier : String) :
    Option User :=
  users.find? (fun u => u.email = identifier ∨ u.username = identifier)

/-- `UserRepository.get_user_by_id`
(`app/repositories/user_repository.py:57`). -/
def get_user_by_id (users : List User) (user_id : String) : Option User :=
  users.find? (fun u => u.id = user_id)

/-- `RefreshTokenRepository.create_refresh_token`
(`app/repositories/refresh_token_repository.py:18`): inserts a fresh,
unrevoked row. -/
def create_refresh_token (db : List RefreshTokenRec)
    (user_id token_hash : String) (expires_at : Int)
    (device_info : Option String) (created_at : Int) : List RefreshTokenRec :=
  db ++ [{ user_id := user_id
           token_hash := token_hash
           expires_at := expires_at
           revoked := false
           device_info := device_info
           created_at := created_at }]

/-- `RefreshTokenRepository.get_refresh_token_by_hash`
(`app/repositories/refresh_token_repository.py:38`): first row with the
given hash among the rows with `revoked == False`. -/
def get_refresh_token_by_hash (db : List RefreshTokenRec) (h : String) :
    Option RefreshTokenRec :=
  db.find? (fun r => r.token_hash = h ∧ r.revoked = false)

/-- `RefreshTokenRepository.revoke_refresh_token`
(`app/repositories/refresh_token_repository.py:49`): marks the first row
with the given hash revoked; returns whether a row was found. -/
def revoke_refresh_token (db : List RefreshTokenRec) (h : String) :
    Bool × List RefreshTokenRec :=
  match db with
  | [] => (false, [])
  | r :: rest =>
    if r.token_hash = h then
      (true, { r with revoked := true } :: rest)
    else
      let res := revoke_refresh_token rest h
      (res.1, r :: res.2)

/-- Active-session filter of `RefreshTokenRepository.get_user_tokens`
(`app/repositories/refresh_token_repository.py:96`): rows of the user
with `revoked == False` and `expires_at > now`. -/
def count_active_sessions (db : List RefreshTokenRec) (user_id : String)
    (now : Int) : Nat :=
  (db.filter (fun r => r.user_id = user_id ∧ r.revoked = false ∧
    now < r.expires_at)).length

/-- `RefreshTokenRepository.limit_user_sessions`
(`app/repositories/refresh_token_repository.py:104`): the source is the
unimplemented stub `return 0` (marked `# TODO: Implement this`); it
revokes nothing and reports zero revocations. -/
def limit_user_sessions (db : List RefreshTokenRec) (user_id : String)
    (max_sessions : Nat) : Nat × List RefreshTokenRec :=
  (0, db)

/-- The Redis sorted-set store: each key holds the list of member
timestamps (members are `str(ts)`, so a key never holds a duplicate
timestamp). -/
def RedisStore := String → List Int

/-- Point update of one key of the store. -/
def setKey (store : RedisStore) (key : String) (v : List Int) : RedisStore :=
  fun k => if k = key then v else store k

/-- `redis.zadd(key, {str(ts): ts})`: insert-if-absent, since the member
string is determined by the timestamp. -/
def zadd (store : RedisStore) (key : String) (ts : Int) : RedisStore :=
  setKey store key (if ts ∈ store key then store key else store key ++ [ts])

/-- `redis.zremrangebyscore(key, 0, hi)`: drop the members whose score
lies in `[0, hi]`. -/
def zremrangebyscore (store : RedisStore) (key : String) (hi : Int) :
    RedisStore :=
  setKey store key ((store key).filter (fun t => ¬(0 ≤ t ∧ t ≤ hi)))

/-- Rate-limit configuration of `RateLimiter.__init__`
(`app/services/rate_limiter.py:14`): per-scope maxima and windows, the
windows already converted to seconds. -/
structure RateLimiter where
  enabled : Bool
  per_ip_requests : Nat
  per_ip_window : Int
  per_identifier_attempts : Nat
  per_identifier_window : Int
  per_account_attempts : Nat
  per_account_window : Int
  deriving DecidableEq, Repr

/-- The default configuration values of `RateLimiter.__init__`:
IP 20/15min, identifier 5/15min, account 10/60min. -/
def RateLimiter.defaults : RateLimiter :=
  { enabled := true
    per_ip_requests := 20
    per_ip_window := 15 * 60
    per_identifier_attempts := 5
    per_identifier_window := 15 * 60
    per_account_attempts := 10
    per_account_window := 60 * 60 }

/-- `RateLimiter._check_sliding_window` (`app/services/rate_limiter.py:109`):
purge the scores in `[0, now - window]`, then the limit is hit when the
remaining count is at least the maximum.  Returns the mutated store and
whether `RateLimitError` is raised. -/
def check_sliding_window (store : RedisStore) (key : String)
    (current_time : Int) (max_requests : Nat) (window_size : Int) :
    RedisStore × Bool :=
  let store₁ := zremrangebyscore store key (current_time - window_size)
  (store₁, max_requests ≤ (store₁ key).length)

/-- `RateLimiter._record_sliding_window` (`app/services/rate_limiter.py:129`):
add the current timestamp, refresh the key's TTL (no observable effect,
see the module comment), then purge stale scores. -/
def record_sliding_window (store : RedisStore) (key : String)
    (current_time : Int) (window_size : Int) : RedisStore :=
  zremrangebyscore (zadd store key current_time) key
    (current_time - window_size)

/-- `RateLimiter.check_rate_limit` (`app/services/rate_limiter.py:39`):
no-op when disabled; otherwise check the ip scope, then the identifier
scope when supplied, then the account scope when supplied — the first
violated scope raises, leaving the later scopes untouched (and
unpurged).  Returns the mutated store and the raised error, if any. -/
def check_rate_limit (rl : RateLimiter) (store : RedisStore)
    (ip_address : String) (identifier user_id : Option String)
    (now : Int) : RedisStore × Option AuthErr :=
  if !rl.enabled then (store, none)
  else
    let res₁ := check_sliding_window store ("ip:" ++ ip_address) now
      rl.per_ip_requests rl.per_ip_window
    if res₁.2 then (res₁.1, some .rateLimitExceeded)
    else
      match identifier with
      | some idf =>
        let res₂ := check_sliding_window res₁.1 ("identifier:" ++ idf) now
          rl.per_identifier_attempts rl.per_identifier_window
        if res₂.2 then (res₂.1, some .rateLimitExceeded)
        else
          match user_id with
          | some uid =>
            let res₃ := check_sliding_window res₂.1 ("account:" ++ uid) now
              rl.per_account_attempts rl.per_account_window
            if res₃.2 then (res₃.1, some .rateLimitExceeded)
            else (res₃.1, none)
          | none => (res₂.1, none)
      | none =>
        match user_id with
        | some uid =>
          let res₃ := check_sliding_window res₁.1 ("account:" ++ uid) now
            rl.per_account_attempts rl.per_account_window
          if res₃.2 then (res₃.1, some .rateLimitExceeded)
          else (res₃.1, none)
        | none => (res₁.1, none)

/-- `RateLimiter.record_attempt` (`app/services/rate_limiter.py:80`):
no-op when disabled; otherwise record `now` for the ip scope and for the
identifier and account scopes when supplied. -/
def record_attempt (rl : RateLimiter) (store : RedisStore)
    (ip_address : String) (identifier user_id : Option String)
    (now : Int) : RedisStore :=
  if !rl.enabled then store
  else
    let s₁ := record_sliding_window store ("ip:" ++ ip_address) now
      rl.per_ip_window
    let s₂ := match identifier with
      | some idf =>
        record_sliding_window s₁ ("identifier:" ++ idf) now
          rl.per_identifier_window
      | none => s₁
    match user_id with
    | some uid =>
      record_sliding_window s₂ ("account:" ++ uid) now rl.per_account_window
    | none => s₂

/-- `RateLimiter.clear_user_rate_limits` (`app/services/rate_limiter.py:143`):
`redis.delete(f"account:{user_id}")` — only the account-scope key is
emptied. -/
def clear_user_rate_limits (store : RedisStore) (user_id : String) :
    RedisStore :=
  setKey store ("account:" ++ user_id) []

/-- Invocation of the bcrypt primitive, traced so that statements can
talk about which password checks a flow performed. -/
inductive BcryptOp where
  | verify (password hashed : String)
  | dummy
  deriving DecidableEq, Repr

/-- Mutable state threaded through `AuthService.login_user`: the Redis
store, the refresh-token table, and the trace of bcrypt invocations. -/
structure LoginState where
  redis : RedisStore
  tokens : List RefreshTokenRec
  ops : List BcryptOp

/-- `PasswordManager.verify_password` as invoked by the service,
appending the invocation to the trace. -/
def pm_verify_password (st : LoginState) (password hashed : String) :
    Bool × LoginState :=
  (verify_password password hashed, { st with ops := st.ops ++ [.verify password hashed] })

/-- `PasswordManager.dummy_verify` (`app/utils/auth.py:202`) as it would
be invoked by the service.  In `AuthService.login_user` the call site is
commented out (`# TODO: Try to understand this line and uncomment it`,
`app/services/auth_service.py:91`), so no flow below invokes it. -/
def pm_dummy_verify (st : LoginState) : LoginState :=
  { st with ops := st.ops ++ [.dummy] }

/-- Successful outcome of registration/login: the user row and the token
payload dict. -/
structure TokenPair where
  access_token : Jwt
  refresh_token : Jwt
  token_type : String
  expires_in : Int
  deriving DecidableEq, Repr

/-- The `{"user": ..., "tokens": ...}` result returned by
`register_user` and `login_user`. -/
structure AuthResult where
  user : User
  tokens : TokenPair
  deriving DecidableEq, Repr

/-- `AuthService.create_tokens` (`app/services/auth_service.py:155`):
issue the access/refresh pair and report
`expires_in = access_token_ttl * 60`. -/
def create_tokens (mgr : JWTManager) (user : User) (now : Int)
    (jtiA jtiR : String) : TokenPair :=
  { access_token := generate_access_token mgr user.id user.username user.email now jtiA
    refresh_token := generate_refresh_token mgr user.id now jtiR
    token_type := "Bearer"
    expires_in := mgr.access_token_ttl * 60 }

/-- Python's substring test `needle in hay`, used by the registration
password policy. -/
def substr_in (needle hay : String) : Bool :=
  (List.range (hay.data.length + 1)).any
    (fun i => needle.data.isPrefixOf (hay.data.drop i))

/-- `AuthService.register_user` (`app/services/auth_service.py:46`):
password-confirmation equality, the case-insensitive substring policy
(password must not contain the username or the email's local part),
hash, create the row, issue tokens.  No rate limiting and no
refresh-token persistence on this path. -/
def register_user (mgr : JWTManager) (users : List User)
    (email username password confirm_password uid : String) (now : Int)
    (jtiA jtiR : String) : Except AuthErr (AuthResult × List User) :=
  if password ≠ confirm_password then .error .validationFailed
  else if (substr_in (py_lower username) (py_lower password) ||
      substr_in (py_lower (email_local_part email)) (py_lower password)) then
    .error .validationFailed
  else
    let password_hash := hash_password password
    match create_user users email username password_hash uid with
    | .error e => .error e
    | .ok (user, users₁) =>
      .ok ({ user := user, tokens := create_tokens mgr user now jtiA jtiR }, users₁)

/-- Body of the `try:` block of `AuthService.login_user`
(`app/services/auth_service.py:81`): rate-limit check for ip+identifier,
user lookup (the dummy bcrypt on the not-found path is commented out in
the source), active check, password check, clear of the account scope,
token issuance, refresh-token persistence, session limiting. -/
def login_body (mgr : JWTManager) (rl : RateLimiter) (users : List User)
    (max_sessions : Nat) (identifier password ip_address : String)
    (device_info : Option String) (st : LoginState) (now : Int)
    (jtiA jtiR : String) : Except AuthErr AuthResult × LoginState :=
  let c := check_rate_limit rl st.redis ip_address (some identifier) none now
  match c.2 with
  | some e => (.error e, { st with redis := c.1 })
  | none =>
    let st₁ := { st with redis := c.1 }
    match get_user_by_identifier users identifier with
    | none =>
      (.error .invalidCredentials,
        { st₁ with redis := record_attempt rl st₁.redis ip_address (some identifier) none now })
    | some user =>
      if !user.is_active then
        (.error .accountInactive,
          { st₁ with redis := record_attempt rl st₁.redis ip_address (some identifier) (some user.id) now })
      else
        let v := pm_verify_password st₁ password user.password_hash
        let st₂ := v.2
        if !v.1 then
          (.error .invalidCredentials,
            { st₂ with redis := record_attempt rl st₂.redis ip_address (some identifier) (some user.id) now })
        else
          let st₃ := { st₂ with redis := clear_user_rate_limits st₂.redis user.id }
          let tokens := create_tokens mgr user now jtiA jtiR
          let token_hash := hash_token tokens.refresh_token
          let expires_at := now + mgr.refresh_token_ttl * 86400
          let st₄ := { st₃ with tokens :=
            create_refresh_token st₃.tokens user.id token_hash expires_at device_info now }
          let lim := limit_user_sessions st₄.tokens user.id max_sessions
          (.ok { user := user, tokens := tokens }, { st₄ with tokens := lim.2 })

/-- `AuthService.login_user` (`app/services/auth_service.py:77`)
including the fail-safe `except` clause (`auth_service.py:149`): any
raised error other than `InvalidCredentialsError`/`AccountInactiveError`
triggers one extra `record_attempt(ip, identifier)` before
propagating. -/
def login_user (mgr : JWTManager) (rl : RateLimiter) (users : List User)
    (max_sessions : Nat) (identifier password ip_address : String)
    (device_info : Option String) (st : LoginState) (now : Int)
    (jtiA jtiR : String) : Except AuthErr AuthResult × LoginState :=
  let r := login_body mgr rl users max_sessions identifier password
    ip_address device_info st now jtiA jtiR
  match r.1 with
  | .error .invalidCredentials => r
  | .error .accountInactive => r
  | .error e =>
    (.error e,
      { r.2 with redis := record_attempt rl r.2.redis ip_address (some identifier) none now })
  | .ok v => (.ok v, r.2)

/-- Result of `AuthService.refresh_tokens`: the new token payload dict. -/
structure RefreshResult where
  access_token : Jwt
  refresh_token : Jwt
  token_type : String
  expires_in : Int
  deriving DecidableEq, Repr

/-- `AuthService.refresh_tokens` (`app/services/auth_service.py:169`):
validate as type refresh (any `jwt.InvalidTokenError` becomes
`InvalidRefreshTokenError`), look up the stored row by hash excluding
revoked rows, require it valid, require the user present and active,
revoke the old row, issue and persist a new pair carrying the old row's
device descriptor.  Returns the result and the refresh-token table
after the call. -/
def refresh_tokens (mgr : JWTManager) (users : List User)
    (db : List RefreshTokenRec) (token : Jwt) (now : Int)
    (jtiA jtiR : String) : Except AuthErr RefreshResult × List RefreshTokenRec :=
  match validate_token mgr token "refresh" now with
  | .error _ => (.error .invalidRefreshToken, db)
  | .ok payload =>
    let token_hash := hash_token token
    match get_refresh_token_by_hash db token_hash with
    | none => (.error .invalidRefreshToken, db)
    | some stored =>
      if !stored.is_valid now then (.error .invalidRefreshToken, db)
      else
        match get_user_by_id users payload.sub with
        | none => (.error .invalidRefreshToken, db)
        | some user =>
          if !user.is_active then (.error .invalidRefreshToken, db)
          else
            let db₁ := (revoke_refresh_token db token_hash).2
            let new_access := generate_access_token mgr user.id user.username
              user.email now jtiA
            let new_refresh := generate_refresh_token mgr user.id now jtiR
            let new_hash := hash_token new_refresh
            let expires_at := now + mgr.refresh_token_ttl * 86400
            let db₂ := create_refresh_token db₁ user.id new_hash expires_at
              stored.device_info now
            (.ok { access_token := new_access
                   refresh_token := new_refresh
                   token_type := "Bearer"
                   expires_in := mgr.access_token_ttl * 60 }, db₂)

/-- Projection: the `expires_in` field of a successful auth result. -/
def expiresInOf (r : Except AuthErr AuthResult) : Option Int :=
  match r with
  | .ok v => some v.tokens.expires_in
  | .error _ => none

/-- Projection: `exp - iat` of the access token of a successful auth
result. -/
def accessExpIatOf (r : Except AuthErr AuthResult) : Option Int :=
  match r with
  | .ok v => some (v.tokens.access_token.payload.exp - v.tokens.access_token.payload.iat)
  | .error _ => none

instance {ε α : Type} [DecidableEq ε] [DecidableEq α] :
    DecidableEq (Except ε α) := fun x y =>
  match x, y with
  | .error a, .error b => decidable_of_iff (a = b) (by simp)
  | .error _, .ok _ => isFalse (by simp)
  | .ok _, .error _ => isFalse (by simp)
  | .ok a, .ok b => decidable_of_iff (a = b) (by simp)

/-- Whether an `Except` result is a success. -/
def isOkE {α : Type} (r : Except AuthErr α) : Bool :=
  match r with
  | .ok _ => true
  | .error _ => false

/-- Projection: registration result without the updated user table. -/
def regResultOf (r : Except AuthErr (AuthResult × List User)) :
    Except AuthErr AuthResult :=
  match r with
  | .ok p => .ok p.1
  | .error e => .error e

/-- Repeated `_record_sliding_window` calls on one key, one per element
of `times`. -/
def recordMany (store : RedisStore) (key : String) (times : List Int)
    (window : Int) : RedisStore :=
  times.foldl (fun s t => record_sliding_window s key t window) store

/-- A token-engine configuration with concrete key material and the
default TTLs (15-minute access tokens, 30-day refresh tokens). -/
def mgr0 : JWTManager :=
  { private_key := "priv"
    public_key := "pub"
    key_id := "kid"
    algorithm := "RS256"
    issuer := "iss"
    audience := "aud"
    access_token_ttl := 15
    refresh_token_ttl := 30 }

/-- A concrete active user whose password is `pw`. -/
def alice : User :=
  { id := "u1"
    email := "alice@x.com"
    username := "alice"
    password_hash := hash_password "pw"
    email_verified := false
    is_active := true }

/-- The empty Redis store. -/
def emptyStore : RedisStore := fun _ => []

/-- The empty login state. -/
def st0 : LoginState := { redis := emptyStore, tokens := [], ops := [] }

/-- Two pre-existing active sessions of user `u1`, created at times 1
and 2. -/
def sessionsDb : List RefreshTokenRec :=
  [{ user_id := "u1", token_hash := "h1", expires_at := 9999999
     revoked := false, device_info := none, created_at := 1 },
   { user_id := "u1", token_hash := "h2", expires_at := 9999999
     revoked := false, device_info := none, created_at := 2 }]

/-- Login state holding the two pre-existing sessions. -/
def stSessions : LoginState :=
  { redis := emptyStore, tokens := sessionsDb, ops := [] }

/-- Login state whose account-scope counter for `u1` already holds ten
attempts inside the 60-minute window ending at time 1000. -/
def stAcct : LoginState :=
  { redis := fun k => if k = "account:u1" then
      [991, 992, 993, 994, 995, 996, 997, 998, 999, 1000] else []
    tokens := [], ops := [] }

/-- Login state whose identifier-scope counter for `bob` already holds
five attempts inside the 15-minute window ending at time 1001. -/
def stIdf : LoginState :=
  { redis := fun k => if k = "identifier:bob" then [996, 997, 998, 999, 1000]
      else []
    tokens := [], ops := [] }

/-- The row `create_user` stores for a registration with the mixed-case
email `Bob@X.com` and username `bobby`. -/
def userB : User :=
  { id := "u9"
    email := "bob@x.com"
    username := "bobby"
    password_hash := "h"
    email_verified := false
    is_active := true }

/-- A refresh token of `u1` minted at time 0. -/
def rt0 : Jwt := generate_refresh_token mgr0 "u1" 0 "jti0"

/-- The refresh-token table holding exactly the stored row of `rt0`. -/
def db0 : List RefreshTokenRec :=
  [{ user_id := "u1", token_hash := hash_token rt0, expires_at := 2592000
     revoked := false, device_info := none, created_at := 0 }]

/-- A store with one attempt on an ip key, one on an identifier key and
attempts on every other key, so clearing must be visibly selective. -/
def storeC7 : RedisStore := fun k => if k = "ip:1.2.3.4" then [5] else [7]

/-- Claim C2: the spec requires FIFO session-limit eviction — after a
login that takes a user past `max_sessions_per_user`, the oldest excess
sessions are revoked, exactly the limit stays active, and
`limit_user_sessions` returns the number revoked.  The code's
`limit_user_sessions` is the stub `return 0` (`# TODO: Implement this`),
so a third login with a limit of two sessions revokes nothing: the call
reports zero revocations and three sessions stay active. -/
theorem limit_user_sessions_stub_violation :
    isOkE (login_user mgr0 .defaults [alice] 2 "alice" "pw" "9.9.9.9" none
      stSessions 1000 "jA" "jR").1 = true
    ∧ (limit_user_sessions (login_user mgr0 .defaults [alice] 2 "alice" "pw"
        "9.9.9.9" none stSessions 1000 "jA" "jR").2.tokens "u1" 2).1 = 0
    ∧ count_active_sessions (login_user mgr0 .defaults [alice] 2 "alice" "pw"
        "9.9.9.9" none stSessions 1000 "jA" "jR").2.tokens "u1" 1000 = 3 := by
  decide

/-- Claim C4: the account scope is supposed to participate in the login
rate-limit check once the account is resolved, but
`AuthService.login_user` calls `check_rate_limit(ip, identifier)` only,
never passing the resolved user id.  With the account-scope counter of
`u1` at its maximum of ten attempts inside the window (the sliding-window
check on that key reports the limit hit), a login with correct
credentials still succeeds instead of failing with
`RateLimitExceeded`. -/
theorem login_ignores_account_scope :
    (check_sliding_window stAcct.redis ("account:" ++ "u1") 1000
      RateLimiter.defaults.per_account_attempts
      RateLimiter.defaults.per_account_window).2 = true
    ∧ isOkE (login_user mgr0 .defaults [alice] 10 "alice" "pw" "9.9.9.9" none
        stAcct 1000 "jA" "jR").1 = true := by
  decide

/-- Claim C5: login with an identifier matching no user is supposed to
run the constant-time dummy bcrypt verify before failing; in the source
the `dummy_verify` call is commented out
(`# TODO: Try to understand this line and uncomment it`,
`auth_service.py:91`).  On an unknown identifier the flow performs no
bcrypt operation at all (empty trace), yet still records the failed
attempt and fails with the same `InvalidCredentials` error as the
wrong-password case. -/
theorem login_unknown_identifier_no_dummy_verify :
    (login_user mgr0 .defaults [alice] 10 "ghost" "pw" "9.9.9.9" none st0
      1000 "jA" "jR").1 = .error .invalidCredentials
    ∧ (login_user mgr0 .defaults [alice] 10 "alice" "badpw" "9.9.9.9" none st0
        1000 "jA" "jR").1 = .error .invalidCredentials
    ∧ (login_user mgr0 .defaults [alice] 10 "ghost" "pw" "9.9.9.9" none st0
        1000 "jA" "jR").1
      = (login_user mgr0 .defaults [alice] 10 "alice" "badpw" "9.9.9.9" none
        st0 1000 "jA" "jR").1
    ∧ (login_user mgr0 .defaults [alice] 10 "ghost" "pw" "9.9.9.9" none st0
        1000 "jA" "jR").2.ops = []
    ∧ (1000 : Int) ∈ (login_user mgr0 .defaults [alice] 10 "ghost" "pw"
        "9.9.9.9" none st0 1000 "jA" "jR").2.redis
        ("identifier:" ++ "ghost") := by
  decide

/-- Claim C6 counterexample: five `record` calls (the identifier-scope
maximum) issued within the window do not make the next check fail when
they fall in the same second — the Redis member is the timestamp string,
so the five records collapse to a single stored entry and the check
passes. -/
theorem sliding_window_same_second_counterexample :
    (check_sliding_window
      (recordMany emptyStore "identifier:alice"
        [1000, 1000, 1000, 1000, 1000] 900)
      "identifier:alice" 1000 5 900).2 = false := by
  decide

/-- Claim C3: for every user id, `validate_token` applied to
`generate_access_token` with expected type `access` succeeds and returns
the token's claims, whose `sub` is the user id and whose `type` is
`access`; validating the same token with expected type `refresh` fails,
although the token is signed with the manager's own key (its signature
is cryptographically valid). -/
theorem access_token_round_trip (mgr : JWTManager) (u username email : String)
    (now : Int) (jti : String) (h : 0 < mgr.access_token_ttl) :
    validate_token mgr (generate_access_token mgr u username email now jti)
        "access" now
      = .ok (generate_access_token mgr u username email now jti).payload
    ∧ (generate_access_token mgr u username email now jti).payload.sub = u
    ∧ (generate_access_token mgr u username email now jti).payload.type
        = "access"
    ∧ (generate_access_token mgr u username email now jti).key
        = mgr.private_key
    ∧ validate_token mgr (generate_access_token mgr u username email now jti)
        "refresh" now = .error .invalidToken := by
  have hexp : ¬ (now + mgr.access_token_ttl * 60 ≤ now) := by omega
  refine ⟨?_, rfl, rfl, rfl, ?_⟩
  · simp [validate_token, generate_access_token, hexp]
  · simp [validate_token, generate_access_token]

/-- Claim C3 witness: the round trip at a concrete manager, user and
instant. -/
theorem access_token_round_trip_witness :
    validate_token mgr0 (generate_access_token mgr0 "u1" "al" "a@x.com" 0 "j1")
        "access" 0
      = .ok (generate_access_token mgr0 "u1" "al" "a@x.com" 0 "j1").payload
    ∧ (generate_access_token mgr0 "u1" "al" "a@x.com" 0 "j1").payload.sub
        = "u1"
    ∧ (generate_access_token mgr0 "u1" "al" "a@x.com" 0 "j1").payload.type
        = "access"
    ∧ (generate_access_token mgr0 "u1" "al" "a@x.com" 0 "j1").key
        = mgr0.private_key
    ∧ validate_token mgr0 (generate_access_token mgr0 "u1" "al" "a@x.com" 0 "j1")
        "refresh" 0 = .error .invalidToken :=
  access_token_round_trip mgr0 "u1" "al" "a@x.com" 0 "j1" (by decide)

/-- Claim C7: `clear_user_rate_limits` deletes exactly the account-scope
key of the given user: the account-scope sliding-window check then
passes (its count is zero), and every other key — in particular the ip
and identifier keys — keeps its entries unchanged. -/
theorem clear_only_account_scope (store : RedisStore) (u : String)
    (now : Int) (maxA : Nat) (w : Int) (hmax : 0 < maxA) :
    (check_sliding_window (clear_user_rate_limits store u)
      ("account:" ++ u) now maxA w).2 = false
    ∧ ∀ k, k ≠ "account:" ++ u → clear_user_rate_limits store u k = store k := by
  constructor
  · simp [check_sliding_window, clear_user_rate_limits, zremrangebyscore,
      setKey]
    omega
  · intro k hk
    simp [clear_user_rate_limits, setKey, hk]

/-- Claim C7 witness: clearing `u1` at a concrete store makes the
account check pass while the ip and identifier keys are untouched. -/
theorem clear_only_account_scope_witness :
    (check_sliding_window (clear_user_rate_limits storeC7 "u1")
      ("account:" ++ "u1") 1000 10 3600).2 = false
    ∧ clear_user_rate_limits storeC7 "u1" ("ip:" ++ "1.2.3.4")
      = storeC7 ("ip:" ++ "1.2.3.4")
    ∧ clear_user_rate_limits storeC7 "u1" ("identifier:" ++ "bob")
      = storeC7 ("identifier:" ++ "bob") :=
  ⟨(clear_only_account_scope storeC7 "u1" 1000 10 3600 (by decide)).1,
   (clear_only_account_scope storeC7 "u1" 1000 10 3600 (by decide)).2 _ (by decide),
   (clear_only_account_scope storeC7 "u1" 1000 10 3600 (by decide)).2 _ (by decide)⟩

lemma setKey_same (store : RedisStore) (k : String) (v : List Int) :
    setKey store k v k = v := by
  simp [setKey]

lemma record_sliding_window_frame (store : RedisStore) (key : String)
    (t w : Int) (k : String) (h : k ≠ key) :
    record_sliding_window store key t w k = store k := by
  simp [record_sliding_window, zremrangebyscore, zadd, setKey, h]

lemma mem_record_sliding_window_self (store : RedisStore) (key : String)
    (t w : Int) (hw : 0 < w) :
    t ∈ record_sliding_window store key t w key := by
  have hpred : ¬ (0 ≤ t ∧ t ≤ t - w) := by omega
  simp [record_sliding_window, zremrangebyscore, zadd, setKey,
    List.mem_filter, hpred]
  by_cases h : t ∈ store key <;> simp [h] <;> omega

lemma mem_record_sliding_window_of_mem (store : RedisStore) (key : String)
    (t' w x : Int) (hmem : x ∈ store key) (hx : t' - w < x) :
    x ∈ record_sliding_window store key t' w key := by
  have hpred : ¬ (0 ≤ x ∧ x ≤ t' - w) := by omega
  simp [record_sliding_window, zremrangebyscore, zadd, setKey,
    List.mem_filter, hpred]
  by_cases h : t' ∈ store key <;> simp [h, hmem] <;> omega

lemma mem_recordMany_of_mem (key : String) (w x : Int) :
    ∀ (times : List Int) (store : RedisStore), x ∈ store key →
      (∀ t' ∈ times, t' - w < x) → x ∈ recordMany store key times w key := by
  intro times
  induction times with
  | nil => intro store hmem _; exact hmem
  | cons t₀ rest ih =>
    intro store hmem hb
    have h₀ : x ∈ record_sliding_window store key t₀ w key :=
      mem_record_sliding_window_of_mem store key t₀ w x hmem
        (hb t₀ (by simp))
    exact ih (record_sliding_window store key t₀ w) h₀
      (fun t' ht' => hb t' (by simp [ht']))

lemma mem_recordMany_self (key : String) (w : Int) (hw : 0 < w) :
    ∀ (times : List Int) (store : RedisStore) (t : Int), t ∈ times →
      (∀ t' ∈ times, t' - w < t) → t ∈ recordMany store key times w key := by
  intro times
  induction times with
  | nil => intro store t hmem; cases hmem
  | cons t₀ rest ih =>
    intro store t hmem hb
    rcases List.mem_cons.mp hmem with h | h
    · subst h
      have h₀ : t ∈ record_sliding_window store key t w key :=
        mem_record_sliding_window_self store key t w hw
      exact mem_recordMany_of_mem key w t rest
        (record_sliding_window store key t w) h₀
        (fun t' ht' => hb t' (by simp [ht']))
    · exact ih (record_sliding_window store key t₀ w) t h
        (fun t' ht' => hb t' (by simp [ht']))

/-- Claim C6, amended: the count a check uses reflects only timestamps
within `[now - window, now]` (stale entries are purged before counting);
after max-or-more record calls at pairwise-distinct timestamps within
the window, the next check on that scope fails (same-second record calls
collapse to one stored entry, because the stored member is the timestamp
string); and once every stored timestamp is older than `now - window`,
the next check succeeds again. -/
theorem sliding_window_amended :
    (∀ (store : RedisStore) (key : String) (now : Int) (maxR : Nat) (w : Int),
      (∀ t ∈ store key, 0 ≤ t ∧ t ≤ now) →
      ∀ t ∈ (check_sliding_window store key now maxR w).1 key,
        now - w ≤ t ∧ t ≤ now)
    ∧ (∀ (store : RedisStore) (key : String) (times : List Int) (now : Int)
        (maxR : Nat) (w : Int), 0 < w → times.Nodup →
        (∀ t ∈ times, now - w < t ∧ t ≤ now) → maxR ≤ times.length →
        (check_sliding_window (recordMany store key times w) key now maxR w).2
          = true)
    ∧ (∀ (store : RedisStore) (key : String) (now : Int) (maxR : Nat) (w : Int),
        0 < maxR → (∀ t ∈ store key, 0 ≤ t ∧ t < now - w) →
        (check_sliding_window store key now maxR w).2 = false) := by
  refine ⟨?_, ?_, ?_⟩
  · intro store key now maxR w hin t ht
    simp only [check_sliding_window, zremrangebyscore, setKey_same,
      List.mem_filter, decide_eq_true_eq] at ht
    have h₁ := hin t ht.1
    have h₂ := ht.2
    omega
  · intro store key times now maxR w hw hnodup hb hlen
    have hsub : times ⊆ ((recordMany store key times w) key).filter
        (fun t => ¬(0 ≤ t ∧ t ≤ now - w)) := by
      intro t ht
      have hbt := hb t ht
      have hmem : t ∈ recordMany store key times w key :=
        mem_recordMany_self key w hw times store t ht
          (fun t' ht' => by have := hb t' ht'; omega)
      simp only [List.mem_filter, decide_eq_true_eq]
      exact ⟨hmem, by omega⟩
    have hle := (hnodup.subperm hsub).length_le
    simp only [check_sliding_window, zremrangebyscore, setKey_same,
      decide_eq_true_eq]
    omega
  · intro store key now maxR w hmax hold
    have hnil : (store key).filter (fun t => ¬(0 ≤ t ∧ t ≤ now - w)) = [] := by
      rw [List.filter_eq_nil_iff]
      intro a ha
      have := hold a ha
      simp only [decide_eq_true_eq]
      omega
    simp only [check_sliding_window, zremrangebyscore, setKey_same, hnil,
      List.length_nil, decide_eq_false_iff_not]
    omega

/-- Claim C6 witness for the amended statement: a purge keeps only
in-window entries; five distinct-timestamp records inside the window
make the next check fail; a store whose entries are all older than the
window passes the check again. -/
theorem sliding_window_amended_witness :
    (∀ t ∈ (check_sliding_window
        (fun k => if k = "identifier:alice" then [50, 990, 1000] else [])
        "identifier:alice" 1000 5 900).1 "identifier:alice",
      (1000 : Int) - 900 ≤ t ∧ t ≤ 1000)
    ∧ (check_sliding_window
        (recordMany emptyStore "identifier:alice" [101, 102, 103, 104, 105] 900)
        "identifier:alice" 1000 5 900).2 = true
    ∧ (check_sliding_window
        (fun k => if k = "identifier:alice" then [50, 60] else [])
        "identifier:alice" 1000 5 900).2 = false :=
  ⟨sliding_window_amended.1
      (fun k => if k = "identifier:alice" then [50, 990, 1000] else [])
      "identifier:alice" 1000 5 900 (by decide),
   sliding_window_amended.2.1 emptyStore "identifier:alice"
      [101, 102, 103, 104, 105] 1000 5 900 (by decide) (by decide)
      (by decide) (by decide),
   sliding_window_amended.2.2
      (fun k => if k = "identifier:alice" then [50, 60] else [])
      "identifier:alice" 1000 5 900 (by decide) (by decide)⟩

lemma login_body_result_cases (mgr : JWTManager) (rl : RateLimiter)
    (users : List User) (maxS : Nat) (idf pw ip : String)
    (dev : Option String) (st : LoginState) (now : Int) (jA jR : String) :
    (∃ e, (login_body mgr rl users maxS idf pw ip dev st now jA jR).1
        = .error e)
    ∨ ∃ user, (login_body mgr rl users maxS idf pw ip dev st now jA jR).1
        = .ok { user := user, tokens := create_tokens mgr user now jA jR } := by
  simp only [login_body]
  split
  · exact Or.inl ⟨_, rfl⟩
  · split
    · exact Or.inl ⟨_, rfl⟩
    · split
      · exact Or.inl ⟨_, rfl⟩
      · split
        · exact Or.inl ⟨_, rfl⟩
        · exact Or.inr ⟨_, rfl⟩

lemma login_result_cases (mgr : JWTManager) (rl : RateLimiter)
    (users : List User) (maxS : Nat) (idf pw ip : String)
    (dev : Option String) (st : LoginState) (now : Int) (jA jR : String) :
    (∃ e, (login_user mgr rl users maxS idf pw ip dev st now jA jR).1
        = .error e)
    ∨ ∃ user, (login_user mgr rl users maxS idf pw ip dev st now jA jR).1
        = .ok { user := user, tokens := create_tokens mgr user now jA jR } := by
  rcases login_body_result_cases mgr rl users maxS idf pw ip dev st now jA jR
    with ⟨e, he⟩ | ⟨user, hu⟩
  · exact Or.inl ⟨e, by cases e <;> simp [login_user, he]⟩
  · exact Or.inr ⟨user, by simp [login_user, hu]⟩

lemma register_result_cases (mgr : JWTManager) (users : List User)
    (email username pwd cpw uid : String) (now : Int) (jA jR : String) :
    (∃ e, register_user mgr users email username pwd cpw uid now jA jR
        = .error e)
    ∨ ∃ user users₁,
        register_user mgr users email username pwd cpw uid now jA jR
          = .ok ({ user := user, tokens := create_tokens mgr user now jA jR },
              users₁) := by
  simp only [register_user]
  split
  · exact Or.inl ⟨_, rfl⟩
  · split
    · exact Or.inl ⟨_, rfl⟩
    · split
      · exact Or.inl ⟨_, rfl⟩
      · exact Or.inr ⟨_, _, rfl⟩

/-- Claim C8: every successful login and every successful registration
returns a token payload whose `expires_in` equals the configured access
TTL in minutes times 60, and that value equals the access token's
`exp - iat` interval. -/
theorem tokens_expires_in_ttl (mgr : JWTManager) (rl : RateLimiter)
    (users : List User) (maxS : Nat) (idf pw ip : String)
    (dev : Option String) (st : LoginState) (now : Int) (jA jR : String)
    (email username pwd cpw uid : String) (now₂ : Int) (jA₂ jR₂ : String) :
    (isOkE (login_user mgr rl users maxS idf pw ip dev st now jA jR).1 = true →
      expiresInOf (login_user mgr rl users maxS idf pw ip dev st now jA jR).1
        = some (mgr.access_token_ttl * 60)
      ∧ accessExpIatOf
          (login_user mgr rl users maxS idf pw ip dev st now jA jR).1
        = some (mgr.access_token_ttl * 60))
    ∧ (isOkE (regResultOf
        (register_user mgr users email username pwd cpw uid now₂ jA₂ jR₂))
          = true →
      expiresInOf (regResultOf
        (register_user mgr users email username pwd cpw uid now₂ jA₂ jR₂))
        = some (mgr.access_token_ttl * 60)
      ∧ accessExpIatOf (regResultOf
          (register_user mgr users email username pwd cpw uid now₂ jA₂ jR₂))
        = some (mgr.access_token_ttl * 60)) := by
  constructor
  · intro hok
    rcases login_result_cases mgr rl users maxS idf pw ip dev st now jA jR
      with ⟨e, he⟩ | ⟨user, hu⟩
    · rw [he] at hok
      simp [isOkE] at hok
    · rw [hu]
      constructor
      · simp [expiresInOf, create_tokens]
      · simp [accessExpIatOf, create_tokens, generate_access_token]
  · intro hok
    rcases register_result_cases mgr users email username pwd cpw uid now₂
      jA₂ jR₂ with ⟨e, he⟩ | ⟨user, users₁, hu⟩
    · rw [he] at hok
      simp [regResultOf, isOkE] at hok
    · rw [hu]
      constructor
      · simp [regResultOf, expiresInOf, create_tokens]
      · simp [regResultOf, accessExpIatOf, create_tokens, generate_access_token]

/-- Claim C8 witness: a concrete successful login and a concrete
successful registration both report `expires_in = 15 * 60`, matching the
access token's `exp - iat`. -/
theorem tokens_expires_in_ttl_witness :
    (expiresInOf (login_user mgr0 .defaults [alice] 10 "alice" "pw" "9.9.9.9"
        none st0 1000 "jA" "jR").1 = some (mgr0.access_token_ttl * 60)
      ∧ accessExpIatOf (login_user mgr0 .defaults [alice] 10 "alice" "pw"
          "9.9.9.9" none st0 1000 "jA" "jR").1
        = some (mgr0.access_token_ttl * 60))
    ∧ (expiresInOf (regResultOf (register_user mgr0 [alice] "b@x.com" "carol"
          "Zq9mgtxw" "Zq9mgtxw" "u9" 50 "a" "r"))
        = some (mgr0.access_token_ttl * 60)
      ∧ accessExpIatOf (regResultOf (register_user mgr0 [alice] "b@x.com"
          "carol" "Zq9mgtxw" "Zq9mgtxw" "u9" 50 "a" "r"))
        = some (mgr0.access_token_ttl * 60)) :=
  ⟨(tokens_expires_in_ttl mgr0 .defaults [alice] 10 "alice" "pw" "9.9.9.9"
      none st0 1000 "jA" "jR" "b@x.com" "carol" "Zq9mgtxw" "Zq9mgtxw" "u9"
      50 "a" "r").1 (by decide),
   (tokens_expires_in_ttl mgr0 .defaults [alice] 10 "alice" "pw" "9.9.9.9"
      none st0 1000 "jA" "jR" "b@x.com" "carol" "Zq9mgtxw" "Zq9mgtxw" "u9"
      50 "a" "r").2 (by decide)⟩

lemma find?_append_none {α : Type} (p : α → Bool) (l₁ l₂ : List α)
    (h : ∀ x ∈ l₁, ¬ p x = true) : (l₁ ++ l₂).find? p = l₂.find? p := by
  induction l₁ with
  | nil => simp
  | cons a l ih =>
    simp only [List.cons_append]
    rw [List.find?_cons_of_neg _ (h a (by simp))]
    exact ih (fun x hx => h x (by simp [hx]))

/-- Claim C9: registration stores the email lowercased while the login
lookup compares the identifier to the stored email verbatim, so for a
user registered under a mixed-case email (and whose username differs
from that email, with no other user matching it), looking up the exact
email as entered finds no user — only the lowercased form matches — and
a login with the exact email fails with `InvalidCredentials`. -/
theorem email_login_case_sensitive (users : List User)
    (email username ph uid : String) (u : User) (users₁ : List User)
    (hreg : create_user users email username ph uid = .ok (u, users₁))
    (hupper : py_lower email ≠ email)
    (huser : username ≠ email)
    (hothers : ∀ v ∈ users, v.email ≠ email ∧ v.username ≠ email)
    (hothers₂ : ∀ v ∈ users, v.username ≠ py_lower email) :
    get_user_by_identifier users₁ email = none
    ∧ get_user_by_identifier users₁ (py_lower email) = some u
    ∧ ∀ (mgr : JWTManager) (rl : RateLimiter) (maxS : Nat) (pw ip : String)
        (dev : Option String) (st : LoginState) (now : Int) (jA jR : String),
        (check_rate_limit rl st.redis ip (some email) none now).2 = none →
        (login_user mgr rl users₁ maxS email pw ip dev st now jA jR).1
          = .error .invalidCredentials := by
  simp only [create_user] at hreg
  split at hreg
  · exact Except.noConfusion hreg
  case isFalse hconflict =>
    simp only [Except.ok.injEq, Prod.mk.injEq] at hreg
    obtain ⟨hu, husers⟩ := hreg
    subst hu
    subst husers
    have h₁ : get_user_by_identifier (users ++
        [{ id := uid, email := py_lower email, username := username,
           password_hash := ph, email_verified := false,
           is_active := true }]) email = none := by
      unfold get_user_by_identifier
      rw [find?_append_none]
      · rw [List.find?_cons_of_neg, List.find?_nil]
        simp only [decide_eq_true_eq]
        rintro (h | h)
        · exact hupper h
        · exact huser h
      · intro v hv
        simp only [decide_eq_true_eq]
        rintro (h | h)
        · exact (hothers v hv).1 h
        · exact (hothers v hv).2 h
    have h₂ : get_user_by_identifier (users ++
        [{ id := uid, email := py_lower email, username := username,
           password_hash := ph, email_verified := false,
           is_active := true }]) (py_lower email)
        = some { id := uid, email := py_lower email, username := username,
                 password_hash := ph, email_verified := false,
                 is_active := true } := by
      unfold get_user_by_identifier
      rw [find?_append_none]
      · rw [List.find?_cons_of_pos]
        simp
      · intro v hv
        simp only [decide_eq_true_eq]
        rintro (h | h)
        · exact hconflict (List.any_eq_true.mpr ⟨v, hv, by simp [h]⟩)
        · exact hothers₂ v hv h
    refine ⟨h₁, h₂, ?_⟩
    intro mgr rl maxS pw ip dev st now jA jR hchk
    simp [login_user, login_body, hchk, h₁]

/-- Claim C9 witness: after registering `Bob@X.com`/`bobby` next to the
existing user `alice`, the exact email finds no user, the lowercased
email finds the new row, and a login with the exact email fails with
`InvalidCredentials`. -/
theorem email_login_case_sensitive_witness :
    get_user_by_identifier [alice, userB] "Bob@X.com" = none
    ∧ get_user_by_identifier [alice, userB] (py_lower "Bob@X.com") = some userB
    ∧ (login_user mgr0 .defaults [alice, userB] 10 "Bob@X.com" "pw" "9.9.9.9"
        none st0 1000 "jA" "jR").1 = .error .invalidCredentials := by
  have h := email_login_case_sensitive [alice] "Bob@X.com" "bobby" "h" "u9"
    userB [alice, userB] (by decide) (by decide) (by decide) (by decide)
    (by decide)
  exact ⟨h.1, h.2.1, h.2.2 mgr0 .defaults 10 "pw" "9.9.9.9" none st0 1000
    "jA" "jR" (by decide)⟩

/-- Claim C10: when the initial rate-limit check of a login itself
raises `RateLimitExceeded`, the fail-safe catch-all (which exempts only
`InvalidCredentialsError` and `AccountInactiveError`) still calls
`record_attempt` for the ip and identifier scopes before the error
propagates: the login fails with `RateLimitExceeded`, the final store is
exactly the post-check store with one `record_attempt(ip, identifier)`
applied, and the rejected request's timestamp is present in both the
ip-scope and the identifier-scope counters. -/
theorem rate_limited_request_still_recorded (mgr : JWTManager)
    (rl : RateLimiter) (users : List User) (maxS : Nat) (idf pw ip : String)
    (dev : Option String) (st : LoginState) (now : Int) (jA jR : String)
    (hchk : (check_rate_limit rl st.redis ip (some idf) none now).2
      = some .rateLimitExceeded)
    (hwip : 0 < rl.per_ip_window) (hwidf : 0 < rl.per_identifier_window) :
    (login_user mgr rl users maxS idf pw ip dev st now jA jR).1
      = .error .rateLimitExceeded
    ∧ (login_user mgr rl users maxS idf pw ip dev st now jA jR).2.redis
      = record_attempt rl
          (check_rate_limit rl st.redis ip (some idf) none now).1
          ip (some idf) none now
    ∧ now ∈ (login_user mgr rl users maxS idf pw ip dev st now jA jR).2.redis
        ("ip:" ++ ip)
    ∧ now ∈ (login_user mgr rl users maxS idf pw ip dev st now jA jR).2.redis
        ("identifier:" ++ idf) := by
  have henabled : rl.enabled = true := by
    cases he : rl.enabled
    · rw [check_rate_limit] at hchk
      simp [he] at hchk
    · rfl
  have hbody : login_body mgr rl users maxS idf pw ip dev st now jA jR
      = (.error .rateLimitExceeded,
         { st with redis :=
            (check_rate_limit rl st.redis ip (some idf) none now).1 }) := by
    simp [login_body, hchk]
  have hlog : login_user mgr rl users maxS idf pw ip dev st now jA jR
      = (.error .rateLimitExceeded,
         { st with redis :=
            (record_attempt rl
              (check_rate_limit rl st.redis ip (some idf) none now).1
              ip (some idf) none now) }) := by
    simp [login_user, hbody]
  have hrec : record_attempt rl
      (check_rate_limit rl st.redis ip (some idf) none now).1
      ip (some idf) none now
      = record_sliding_window
          (record_sliding_window
            (check_rate_limit rl st.redis ip (some idf) none now).1
            ("ip:" ++ ip) now rl.per_ip_window)
          ("identifier:" ++ idf) now rl.per_identifier_window := by
    simp [record_attempt, henabled]
  refine ⟨by rw [hlog], by rw [hlog], ?_, ?_⟩
  · rw [hlog]
    show now ∈ (record_attempt rl
      (check_rate_limit rl st.redis ip (some idf) none now).1
      ip (some idf) none now) ("ip:" ++ ip)
    rw [hrec]
    by_cases hkey : ("ip:" ++ ip) = ("identifier:" ++ idf)
    · rw [hkey]
      exact mem_record_sliding_window_self _ _ _ _ hwidf
    · rw [record_sliding_window_frame _ _ _ _ _ hkey]
      exact mem_record_sliding_window_self _ _ _ _ hwip
  · rw [hlog]
    show now ∈ (record_attempt rl
      (check_rate_limit rl st.redis ip (some idf) none now).1
      ip (some idf) none now) ("identifier:" ++ idf)
    rw [hrec]
    exact mem_record_sliding_window_self _ _ _ _ hwidf

/-- Claim C10 witness: with the identifier-scope counter of `bob` at its
maximum, the login is rejected with `RateLimitExceeded` and the
rejected request's timestamp still lands in both the ip-scope and the
identifier-scope counters. -/
theorem rate_limited_request_still_recorded_witness :
    (login_user mgr0 .defaults [alice] 10 "bob" "pw" "9.9.9.9" none stIdf
      1001 "jA" "jR").1 = .error .rateLimitExceeded
    ∧ (1001 : Int) ∈ (login_user mgr0 .defaults [alice] 10 "bob" "pw"
        "9.9.9.9" none stIdf 1001 "jA" "jR").2.redis ("ip:" ++ "9.9.9.9")
    ∧ (1001 : Int) ∈ (login_user mgr0 .defaults [alice] 10 "bob" "pw"
        "9.9.9.9" none stIdf 1001 "jA" "jR").2.redis
        ("identifier:" ++ "bob") :=
  ⟨(rate_limited_request_still_recorded mgr0 .defaults [alice] 10 "bob" "pw"
      "9.9.9.9" none stIdf 1001 "jA" "jR" (by decide) (by decide)
      (by decide)).1,
   (rate_limited_request_still_recorded mgr0 .defaults [alice] 10 "bob" "pw"
      "9.9.9.9" none stIdf 1001 "jA" "jR" (by decide) (by decide)
      (by decide)).2.2.1,
   (rate_limited_request_still_recorded mgr0 .defaults [alice] 10 "bob" "pw"
      "9.9.9.9" none stIdf 1001 "jA" "jR" (by decide) (by decide)
      (by decide)).2.2.2⟩

lemma validate_token_ok_payload (mgr : JWTManager) (t : Jwt) (ty : String)
    (now : Int) (p : TokenPayload)
    (h : validate_token mgr t ty now = .ok p) : p = t.payload := by
  simp only [validate_token] at h
  repeat' split at h
  all_goals
    first
    | exact Except.noConfusion h
    | (injection h with h
       exact h.symm)

lemma get_user_by_id_some (users : List User) (uid : String) (u : User)
    (h : get_user_by_id users uid = some u) : u.id = uid := by
  unfold get_user_by_id at h
  have hp := List.find?_some h
  simpa using hp

lemma revoke_refresh_token_hash_revoked (h : String) :
    ∀ (db : List RefreshTokenRec),
      (db.map RefreshTokenRec.token_hash).Nodup →
      ∀ rec ∈ (revoke_refresh_token db h).2, rec.token_hash = h →
        rec.revoked = true := by
  intro db
  induction db with
  | nil =>
    intro _ rec hrec
    simp [revoke_refresh_token] at hrec
  | cons r rest ih =>
    intro hnodup rec hrec hh
    have hn : (∀ x ∈ rest, ¬ x.token_hash = r.token_hash)
        ∧ (List.map RefreshTokenRec.token_hash rest).Nodup := by
      simpa using hnodup
    by_cases hr : r.token_hash = h
    · simp only [revoke_refresh_token, if_pos hr] at hrec
      rcases List.mem_cons.mp hrec with heq | hmem
      · rw [heq]
      · exact absurd (by rw [hh, ← hr]) (hn.1 rec hmem)
    · simp only [revoke_refresh_token, if_neg hr] at hrec
      rcases List.mem_cons.mp hrec with heq | hmem
      · exact absurd (heq ▸ hh) hr
      · exact ih hn.2 rec hmem hh

lemma get_refresh_token_by_hash_none (db : List RefreshTokenRec) (h : String)
    (hall : ∀ rec ∈ db, rec.token_hash = h → rec.revoked = true) :
    get_refresh_token_by_hash db h = none := by
  unfold get_refresh_token_by_hash
  rw [List.find?_eq_none]
  intro r hr
  simp only [decide_eq_true_eq]
  rintro ⟨h₁, h₂⟩
  rw [hall r hr h₁] at h₂
  exact Bool.noConfusion h₂

/-- Claim C1: whenever `refresh_tokens` succeeds on a refresh token `rt`
(over a table without duplicate hashes, and with the freshly minted
replacement token hashing differently from `rt`, which SHA-256
collision-freedom guarantees for the fresh `jti`), every row for
`hash(rt)` in the resulting table is revoked, and a second
`refresh_tokens` call with the same `rt` on that table fails with
`InvalidRefreshToken`: `get_refresh_token_by_hash` excludes revoked
rows, so the lookup finds no valid record. -/
theorem refresh_rotation_single_use (mgr : JWTManager) (users : List User)
    (db : List RefreshTokenRec) (rt : Jwt) (now now₂ : Int)
    (jA jR jA₂ jR₂ : String)
    (hnodup : (db.map RefreshTokenRec.token_hash).Nodup)
    (hfresh : hash_token (generate_refresh_token mgr rt.payload.sub now jR)
      ≠ hash_token rt)
    (hok : isOkE (refresh_tokens mgr users db rt now jA jR).1 = true) :
    (∀ rec ∈ (refresh_tokens mgr users db rt now jA jR).2,
      rec.token_hash = hash_token rt → rec.revoked = true)
    ∧ (refresh_tokens mgr users (refresh_tokens mgr users db rt now jA jR).2
        rt now₂ jA₂ jR₂).1 = .error .invalidRefreshToken := by
  cases hv : validate_token mgr rt "refresh" now with
  | error e => simp [refresh_tokens, hv, isOkE] at hok
  | ok p =>
    have hp := validate_token_ok_payload mgr rt "refresh" now p hv
    subst hp
    cases hg : get_refresh_token_by_hash db (hash_token rt) with
    | none => simp [refresh_tokens, hv, hg, isOkE] at hok
    | some stored =>
      cases hvalid : stored.is_valid now with
      | false => simp [refresh_tokens, hv, hg, hvalid, isOkE] at hok
      | true =>
        cases hu : get_user_by_id users rt.payload.sub with
        | none => simp [refresh_tokens, hv, hg, hvalid, hu, isOkE] at hok
        | some user =>
          cases hact : user.is_active with
          | false =>
            simp [refresh_tokens, hv, hg, hvalid, hu, hact, isOkE] at hok
          | true =>
            have huid : user.id = rt.payload.sub :=
              get_user_by_id_some users rt.payload.sub user hu
            have hdb : (refresh_tokens mgr users db rt now jA jR).2
                = create_refresh_token (revoke_refresh_token db
                    (hash_token rt)).2 user.id
                    (hash_token (generate_refresh_token mgr user.id now jR))
                    (now + mgr.refresh_token_ttl * 86400)
                    stored.device_info now := by
              simp [refresh_tokens, hv, hg, hvalid, hu, hact]
            have hall : ∀ rec ∈ (refresh_tokens mgr users db rt now jA jR).2,
                rec.token_hash = hash_token rt → rec.revoked = true := by
              rw [hdb]
              intro rec hrec hh
              unfold create_refresh_token at hrec
              rcases List.mem_append.mp hrec with h₁ | h₁
              · exact revoke_refresh_token_hash_revoked (hash_token rt) db
                  hnodup rec h₁ hh
              · exfalso
                have heq := List.mem_singleton.mp h₁
                rw [heq] at hh
                rw [huid] at hh
                exact hfresh hh
            refine ⟨hall, ?_⟩
            cases hv₂ : validate_token mgr rt "refresh" now₂ with
            | error e => simp [refresh_tokens, hv₂]
            | ok p₂ =>
              have hp₂ := validate_token_ok_payload mgr rt "refresh" now₂
                p₂ hv₂
              subst hp₂
              have hnone : get_refresh_token_by_hash
                  (refresh_tokens mgr users db rt now jA jR).2
                  (hash_token rt) = none :=
                get_refresh_token_by_hash_none _ _ hall
              set db₂ := (refresh_tokens mgr users db rt now jA jR).2
                with hdb₂
              simp [refresh_tokens, hv₂, hnone]

/-- Claim C1 witness: rotating the concrete refresh token `rt0` succeeds
once and the immediate second rotation with the same token fails with
`InvalidRefreshToken`. -/
theorem refresh_rotation_single_use_witness :
    (refresh_tokens mgr0 [alice]
      (refresh_tokens mgr0 [alice] db0 rt0 100 "a1" "r1").2
      rt0 200 "a2" "r2").1 = .error .invalidRefreshToken :=
  (refresh_rotation_single_use mgr0 [alice] db0 rt0 100 200 "a1" "r1" "a2"
    "r2" (by decide) (by decide) (by decide)).2

end AuthCore
